import Mathlib

/-!
Shallow embedding of the XEP-0191 blocking command module
(module/xep_0191.go): the data model, the storage and session environment
seen by one handler invocation, and the three IQ handlers sendBlockList,
block and unblock together with their helper functions.

External collaborators (the xml package, the storage package and the c2s
session directory) are outside the given source slice; where their
behaviour matters they are modelled from the specification, and each such
definition carries a comment saying so.  Everything else is translated
directly from the Go source.
-/

namespace Xep0191

/-- An XMPP address: node, domain and resource, the empty string standing
for an absent part.  A bare address has an empty resource. -/
structure JID where
  node : String
  domain : String
  resource : String
deriving DecidableEq, Repr

/-- Modelled from the spec: the canonical string form of an address, used
by the module for equality comparisons (equality is exact
normalized-form match; the xml package is outside the slice). -/
def JID.str (j : JID) : String :=
  (if j.node = "" then "" else j.node ++ "@") ++ j.domain ++
    (if j.resource = "" then "" else "/" ++ j.resource)

/-- ToBareJID drops the resource part. -/
def JID.toBareJID (j : JID) : JID :=
  ⟨j.node, j.domain, ""⟩

/-- Minimal XML element tree: a name, attributes and child elements. -/
inductive XElement where
  | mk (name : String) (attrs : List (String × String)) (children : List XElement)

/-- Name of an element. -/
def XElement.name : XElement → String
  | .mk n _ _ => n

/-- Attribute list of an element. -/
def XElement.attrs : XElement → List (String × String)
  | .mk _ a _ => a

/-- Child elements of an element. -/
def XElement.children : XElement → List XElement
  | .mk _ _ c => c

/-- Attributes().Get: the value of an attribute, the empty string when the
attribute is absent. -/
def XElement.attrGet (e : XElement) (key : String) : String :=
  match e.attrs.find? (fun p => p.1 == key) with
  | some p => p.2
  | none => ""

/-- Elements().Children(name): the child elements carrying the given name. -/
def XElement.childrenNamed (e : XElement) (n : String) : List XElement :=
  e.children.filter (fun c => c.name == n)

/-- Namespace of the blocking command, from the module source. -/
def blockingCommandNamespace : String := "urn:xmpp:blocking"

/-- Modelled from the spec: the available presence type string (a constant
of the xml package, outside the slice; only its distinctness from the
unavailable type matters here). -/
def AvailableType : String := "available"

/-- Modelled from the spec: the unavailable presence type string (a
constant of the xml package, outside the slice). -/
def UnavailableType : String := "unavailable"

/-- Modelled from the spec: the roster subscription state "from" (a
constant defined in another module file, outside the slice). -/
def subscriptionFrom : String := "from"

/-- Modelled from the spec: the roster subscription state "both" (a
constant defined in another module file, outside the slice). -/
def subscriptionBoth : String := "both"

/-- A stored block list item: owning username and blocked address string. -/
structure BlockListItem where
  username : String
  jid : String
deriving DecidableEq, Repr

/-- A roster item as read by this module: contact address string and
subscription state. -/
structure RosterItem where
  jid : String
  subscription : String
deriving DecidableEq, Repr

/-- A live c2s session: its full address, the xep_191 requested context
flag (true once the session fetched its block list) and the cached last
presence element it sent. -/
structure Stream where
  jid : JID
  requestedFlag : Bool
  presence : Option XElement

/-- A presence stanza as routed by the module: origin, destination, type
and payload child elements. -/
structure Presence where
  fromJID : JID
  toJID : JID
  presenceType : String
  elements : List XElement

/-- The world one handler invocation runs against: the owning stream
(username, full address, requested flag, cached presence), the storage
contents and failure switches for each storage call, the session
directory and the JID parsing function of the xml package. -/
structure Env where
  username : String
  stmJID : JID
  stmFlag : Bool
  stmPresence : Option XElement
  rosterItems : List RosterItem
  fetchRosterErr : Bool
  blockItems : List BlockListItem
  fetchBlockErr : Bool
  insertErr : Bool
  deleteItemsErr : Bool
  deleteAllErr : Bool
  sessionsFor : JID → List Stream
  newJIDString : String → Bool → Option JID

/-- storage FetchBlockListItems(username): the stored items of the owner. -/
def fetchBlockListItems (env : Env) : List BlockListItem :=
  env.blockItems.filter (fun it => it.username == env.username)

/-- Modelled from the spec: storage InsertOrUpdateBlockListItems is
outside the slice; per the data model the store is unique per
(owner, blocked), so an item already present is not inserted again. -/
def insertOrUpdateBlockListItems (store items : List BlockListItem) : List BlockListItem :=
  items.foldl (fun acc it => if it ∈ acc then acc else acc ++ [it]) store

/-- Modelled from the spec: storage DeleteBlockListItems removes exactly
the given items from the store. -/
def deleteBlockListItems (store items : List BlockListItem) : List BlockListItem :=
  store.filter (fun it => !(items.contains it))

/-- Modelled from the spec: storage DeleteBlockList removes the whole
block list of the given user. -/
def deleteBlockList (store : List BlockListItem) (username : String) : List BlockListItem :=
  store.filter (fun it => it.username != username)

/-- isJIDInBlockList: whether the block list holds an item whose JID
string equals the string form of the given address. -/
def isJIDInBlockList (j : JID) (blItems : List BlockListItem) : Bool :=
  blItems.any (fun it => it.jid == j.str)

/-- isSubscribedFrom: whether the roster holds an item for the address
with subscription state from or both. -/
def isSubscribedFrom (j : JID) (ris : List RosterItem) : Bool :=
  ris.any (fun ri =>
    ri.jid == j.str &&
      (ri.subscription == subscriptionFrom || ri.subscription == subscriptionBoth))

/-- extractItemJIDs: parse the jid attribute of every item element,
failing on the first attribute that does not parse. -/
def extractItemJIDs (env : Env) : List XElement → Option (List JID)
  | [] => some []
  | item :: rest =>
    match env.newJIDString (item.attrGet "jid") false with
    | none => none
    | some j =>
      match extractItemJIDs env rest with
      | none => none
      | some js => some (j :: js)

/-- Modelled from the spec: xml.NewPresence is outside the slice.  Per the
spec the broadcast presences travel from the owner bare address to every
live session of the contact, so the first argument at the call site (the
session address) is the destination and the second (the owner bare
address) the origin. -/
def NewPresence (toJ fromJ : JID) (ptype : String) : Presence :=
  ⟨fromJ, toJ, ptype, []⟩

/-- One iteration body of broadcastPresenceMatching: build the presence
for one destination session, attaching the cached presence payload of
that session when the type is available. -/
def broadcastStanza (env : Env) (stm : Stream) (ptype : String) : Presence :=
  let p := NewPresence stm.jid env.stmJID.toBareJID ptype
  match stm.presence with
  | some pres => if ptype == AvailableType then { p with elements := pres.children } else p
  | none => p

/-- broadcastPresenceMatching: route a presence of the given type to every
live session of the given address whose roster relation grants
visibility (subscription from or both).  A nil address, the result of a
discarded parse error, reaches no session: SessionsFor is modelled from
the spec, which defines it only for proper addresses. -/
def broadcastPresenceMatching (env : Env) (oj : Option JID) (ris : List RosterItem)
    (ptype : String) : List Presence :=
  match oj with
  | none => []
  | some j =>
    (env.sessionsFor j).filterMap (fun stm =>
      if isSubscribedFrom j ris then some (broadcastStanza env stm ptype) else none)

/-- pushIQ: wrap the original element in a fresh set IQ and send it to
every session of the owner bare address whose requested flag is set.
Recorded as (destination session address, pushed element) pairs. -/
def pushIQ (env : Env) (elem : XElement) : List (JID × XElement) :=
  ((env.sessionsFor env.stmJID.toBareJID).filter (fun stm => stm.requestedFlag)).map
    (fun stm => (stm.jid, elem))

/-- The reply stanza sent back to the requesting stream. -/
inductive Reply where
  | result (payload : List XElement)
  | internalServerError
  | jidMalformed
  | badRequest

/-- A storage mutation call attempted by a handler. -/
inductive WriteOp where
  | insert (items : List BlockListItem)
  | deleteItems (items : List BlockListItem)
  | deleteAll (username : String)

/-- Observable outcome of one handler invocation: the reply element, the
routed presences in order, the broadcastPresenceMatching invocations
(address argument and presence type), the pushes to sibling sessions,
the storage mutation calls attempted, the block list store afterwards,
whether ReloadBlockList was triggered and the requested flag of the
owning stream afterwards. -/
structure Output where
  reply : Reply
  routed : List Presence
  broadcastCalls : List (Option JID × String)
  pushes : List (JID × XElement)
  writes : List WriteOp
  store : List BlockListItem
  reload : Bool
  flag : Bool

/-- Outcome of a run that stops with an error reply before any further
side effect. -/
def errOutput (env : Env) (r : Reply) : Output :=
  ⟨r, [], [], [], [], env.blockItems, false, env.stmFlag⟩

/-- sendBlockList: read the block list, render it as a blocklist element,
reply with it and set the requested flag of the stream; a storage read
error yields an internal server error and leaves the flag untouched. -/
def sendBlockList (env : Env) : Output :=
  if env.fetchBlockErr then errOutput env .internalServerError
  else
    let blItms := fetchBlockListItems env
    let blockList := XElement.mk "blocklist" [("xmlns", blockingCommandNamespace)]
      (blItms.map (fun it => XElement.mk "item" [("jid", it.jid)] []))
    ⟨.result [blockList], [], [], [], [], env.blockItems, false, true⟩

/-- Per-address presence emission of the block loop: an address already in
the block list is skipped, otherwise unavailable presence is broadcast. -/
def blockPresenceFor (env : Env) (blItms : List BlockListItem) (ris : List RosterItem)
    (j : JID) : List Presence :=
  if isJIDInBlockList j blItms then []
  else broadcastPresenceMatching env (some j) ris UnavailableType

/-- Per-address presence emission of the targeted unblock loop: an address
not currently blocked is skipped, otherwise available presence is
broadcast. -/
def unblockPresenceFor (env : Env) (blItms : List BlockListItem) (ris : List RosterItem)
    (j : JID) : List Presence :=
  if isJIDInBlockList j blItms then broadcastPresenceMatching env (some j) ris AvailableType
  else []

/-- block: reject an empty item list as a bad request and an unparseable
item address as jid-malformed; then read roster and block list, broadcast
unavailable presence for every requested address not yet blocked, insert
the new items when there are any, reply with a result, push the original
element and trigger a block list reload.  The presence broadcast happens
before the insert, so a failing insert leaves the broadcasts emitted. -/
def block (env : Env) (blockElem : XElement) : Output :=
  let items := blockElem.childrenNamed "item"
  if items.length = 0 then errOutput env .badRequest
  else
    match extractItemJIDs env items with
    | none => errOutput env .jidMalformed
    | some jds =>
      if env.fetchRosterErr then errOutput env .internalServerError
      else if env.fetchBlockErr then errOutput env .internalServerError
      else
        let ris := env.rosterItems
        let blItms := fetchBlockListItems env
        let routed := (jds.map (fun j => blockPresenceFor env blItms ris j)).flatten
        let calls := jds.filterMap (fun j =>
          if isJIDInBlockList j blItms then none
          else some ((some j : Option JID), UnavailableType))
        let bl := jds.filterMap (fun j =>
          if isJIDInBlockList j blItms then none
          else some (⟨env.username, j.str⟩ : BlockListItem))
        if 0 < bl.length then
          if env.insertErr then
            ⟨.internalServerError, routed, calls, [], [.insert bl], env.blockItems, false, env.stmFlag⟩
          else
            ⟨.result [], routed, calls, pushIQ env blockElem, [.insert bl],
              insertOrUpdateBlockListItems env.blockItems bl, true, env.stmFlag⟩
        else
          ⟨.result [], routed, calls, pushIQ env blockElem, [],
            env.blockItems, true, env.stmFlag⟩

/-- unblock: read roster and block list; an empty item list deletes the
whole block list first and then broadcasts available presence for every
stored item, silently discarding parse errors of stored addresses; a
populated list broadcasts available presence for every requested address
currently blocked and deletes those items.  Both success paths reply with
a result, push the original element and trigger a reload. -/
def unblock (env : Env) (unblockElem : XElement) : Output :=
  if env.fetchRosterErr then errOutput env .internalServerError
  else if env.fetchBlockErr then errOutput env .internalServerError
  else
    let ris := env.rosterItems
    let blItms := fetchBlockListItems env
    let items := unblockElem.childrenNamed "item"
    if items.length = 0 then
      if env.deleteAllErr then
        ⟨.internalServerError, [], [], [], [.deleteAll env.username], env.blockItems,
          false, env.stmFlag⟩
      else
        let routed := (blItms.map (fun it =>
          broadcastPresenceMatching env (env.newJIDString it.jid true) ris AvailableType)).flatten
        let calls := blItms.map (fun it => (env.newJIDString it.jid true, AvailableType))
        ⟨.result [], routed, calls, pushIQ env unblockElem, [.deleteAll env.username],
          deleteBlockList env.blockItems env.username, true, env.stmFlag⟩
    else
      match extractItemJIDs env items with
      | none => errOutput env .jidMalformed
      | some jds =>
        let routed := (jds.map (fun j => unblockPresenceFor env blItms ris j)).flatten
        let calls := jds.filterMap (fun j =>
          if isJIDInBlockList j blItms then some ((some j : Option JID), AvailableType)
          else none)
        let bl := jds.filterMap (fun j =>
          if isJIDInBlockList j blItms then some (⟨env.username, j.str⟩ : BlockListItem)
          else none)
        if env.deleteItemsErr then
          ⟨.internalServerError, routed, calls, [], [.deleteItems bl], env.blockItems,
            false, env.stmFlag⟩
        else
          ⟨.result [], routed, calls, pushIQ env unblockElem, [.deleteItems bl],
            deleteBlockListItems env.blockItems bl, true, env.stmFlag⟩

/-- The cached presence payload a session would receive on an available
broadcast. -/
def cachedPayload (stm : Stream) : List XElement :=
  match stm.presence with
  | some pres => pres.children
  | none => []

/-! ### Concrete test world used by witnesses and counterexamples -/

/-- Bare address of the contact c in the test world. -/
def jC : JID := ⟨"c", "d", ""⟩

/-- Live session of the contact c, with no cached presence. -/
def stmC : Stream := ⟨⟨"c", "d", "r2"⟩, false, none⟩

/-- Live session of the contact c carrying a cached presence payload. -/
def stmCPres : Stream := ⟨⟨"c", "d", "r2"⟩, false, some (XElement.mk "presence" [] [XElement.mk "show" [] []])⟩

/-- Test JID parsing function: recognizes the two well-formed addresses of
the test world and rejects everything else. -/
def testParse (s : String) (_flag : Bool) : Option JID :=
  if s = "c@d" then some ⟨"c", "d", ""⟩
  else if s = "e@d" then some ⟨"e", "d", ""⟩
  else none

/-- Item element with a jid attribute. -/
def itemElem (s : String) : XElement := XElement.mk "item" [("jid", s)] []

/-- Block element listing the given addresses. -/
def blockElemOf (ss : List String) : XElement := XElement.mk "block" [] (ss.map itemElem)

/-- Unblock element listing the given addresses. -/
def unblockElemOf (ss : List String) : XElement := XElement.mk "unblock" [] (ss.map itemElem)

/-- Base test environment: owner u at session u@d/r1, contact c with
subscription both and one live session, three live sessions of the owner
of which the first two have requested the block list. -/
def baseEnv : Env where
  username := "u"
  stmJID := ⟨"u", "d", "r1"⟩
  stmFlag := false
  stmPresence := none
  rosterItems := [⟨"c@d", "both"⟩]
  fetchRosterErr := false
  blockItems := []
  fetchBlockErr := false
  insertErr := false
  deleteItemsErr := false
  deleteAllErr := false
  sessionsFor := fun j =>
    if j = ⟨"c", "d", ""⟩ then [stmC]
    else if j = ⟨"u", "d", ""⟩ then
      [⟨⟨"u", "d", "r1"⟩, true, none⟩, ⟨⟨"u", "d", "r2"⟩, true, none⟩,
        ⟨⟨"u", "d", "r3"⟩, false, none⟩]
    else []
  newJIDString := testParse

/-- Test environment with c already blocked. -/
def envBlocked : Env := { baseEnv with blockItems := [⟨"u", "c@d"⟩] }

/-- Test environment with c already blocked and a cached presence payload
on the session of c. -/
def envBlockedPres : Env :=
  { baseEnv with
    blockItems := [⟨"u", "c@d"⟩]
    sessionsFor := fun j => if j = ⟨"c", "d", ""⟩ then [stmCPres] else baseEnv.sessionsFor j }

/-- Test environment with a stored block list item whose address does not
parse. -/
def envBadStored : Env := { baseEnv with blockItems := [⟨"u", "bad"⟩] }

/-- Test environment used by the C6 witness. -/
def envC6 : Env := { baseEnv with blockItems := [⟨"u", "c@d"⟩] }

/-! ### Helper lemmas -/

/-- The per-session stanza of an unavailable broadcast never carries a
payload, whatever the cached presence of the destination session. -/
lemma broadcastStanza_unavailable (env : Env) (stm : Stream) :
    broadcastStanza env stm UnavailableType =
      ⟨env.stmJID.toBareJID, stm.jid, UnavailableType, []⟩ := by
  unfold broadcastStanza NewPresence
  cases stm.presence <;> simp [UnavailableType, AvailableType]

/-- The per-session stanza of an available broadcast carries the cached
presence payload of the destination session. -/
lemma broadcastStanza_available (env : Env) (stm : Stream) :
    broadcastStanza env stm AvailableType =
      ⟨env.stmJID.toBareJID, stm.jid, AvailableType, cachedPayload stm⟩ := by
  unfold broadcastStanza NewPresence cachedPayload
  cases stm.presence <;> simp

/-- A parse failure on some item makes extractItemJIDs fail. -/
lemma extractItemJIDs_ne_nil {env : Env} {items : List XElement}
    (h : extractItemJIDs env items = none) : items ≠ [] := by
  intro hnil
  rw [hnil] at h
  simp [extractItemJIDs] at h

/-- Shape of a successful clear-all unblock: the whole list of the owner
is deleted, available presence is broadcast for every stored item using
the possibly failing parse of its stored address, the original element is
pushed and a reload is triggered. -/
lemma unblock_clearAll (env : Env) (e : XElement)
    (hr : env.fetchRosterErr = false) (hbk : env.fetchBlockErr = false)
    (hda : env.deleteAllErr = false) (hempty : e.childrenNamed "item" = []) :
    unblock env e =
      ⟨Reply.result [],
        ((fetchBlockListItems env).map (fun it =>
          broadcastPresenceMatching env (env.newJIDString it.jid true) env.rosterItems
            AvailableType)).flatten,
        (fetchBlockListItems env).map (fun it => (env.newJIDString it.jid true, AvailableType)),
        pushIQ env e, [WriteOp.deleteAll env.username],
        deleteBlockList env.blockItems env.username, true, env.stmFlag⟩ := by
  unfold unblock
  rw [hr, hbk, hempty, hda]
  simp

/-! ### C6 -/

/-- C6: a list fetch never mutates the block set (the store is unchanged
and no storage mutation call is made); whenever the storage read
succeeds it sets the requested flag of the session to true and replies
with the rendered list; and it fails, with an internal server error,
exactly when the storage read fails. -/
theorem C6_sendBlockList (env : Env) :
    (sendBlockList env).store = env.blockItems ∧
    (sendBlockList env).writes = [] ∧
    (env.fetchBlockErr = false →
      (sendBlockList env).flag = true ∧
      (sendBlockList env).reply = Reply.result
        [XElement.mk "blocklist" [("xmlns", blockingCommandNamespace)]
          ((fetchBlockListItems env).map (fun it => XElement.mk "item" [("jid", it.jid)] []))]) ∧
    ((sendBlockList env).reply = Reply.internalServerError ↔ env.fetchBlockErr = true) := by
  unfold sendBlockList errOutput
  by_cases h : env.fetchBlockErr <;> simp [h]

/-- Witness for C6 at a concrete environment. -/
theorem C6_witness :
    (sendBlockList envC6).store = envC6.blockItems ∧
    (sendBlockList envC6).flag = true :=
  ⟨(C6_sendBlockList envC6).1, ((C6_sendBlockList envC6).2.2.1 rfl).1⟩

/-! ### C7 -/

/-- C7: when some item address of a block or unblock request fails to
parse, the handler replies with a jid-malformed stanza error and performs
no side effect: no presence is routed, no storage mutation call is made,
no push is sent, no reload is triggered, and the store and the requested
flag are unchanged.  In unblock the two storage reads precede the parse,
so they are assumed to succeed there; in block the parse comes first, so
no storage assumption is needed. -/
theorem C7_jidMalformed (env : Env) (e : XElement)
    (hparse : extractItemJIDs env (e.childrenNamed "item") = none) :
    block env e = ⟨Reply.jidMalformed, [], [], [], [], env.blockItems, false, env.stmFlag⟩ ∧
    (env.fetchRosterErr = false → env.fetchBlockErr = false →
      unblock env e =
        ⟨Reply.jidMalformed, [], [], [], [], env.blockItems, false, env.stmFlag⟩) := by
  have hne := extractItemJIDs_ne_nil hparse
  have hlen : ¬(e.childrenNamed "item").length = 0 := by
    simpa [List.length_eq_zero] using hne
  constructor
  · unfold block errOutput
    rw [if_neg hlen, hparse]
  · intro hr hbk
    unfold unblock errOutput
    rw [hr, hbk]
    simp only [Bool.false_eq_true, if_false]
    rw [if_neg hlen, hparse]

/-- Witness for C7: the request listing the unparseable address bad is
answered with jid-malformed and leaves everything untouched. -/
theorem C7_witness :
    block baseEnv (blockElemOf ["bad"]) =
      ⟨Reply.jidMalformed, [], [], [], [], baseEnv.blockItems, false, baseEnv.stmFlag⟩ ∧
    unblock baseEnv (blockElemOf ["bad"]) =
      ⟨Reply.jidMalformed, [], [], [], [], baseEnv.blockItems, false, baseEnv.stmFlag⟩ := by
  have h := C7_jidMalformed baseEnv (blockElemOf ["bad"]) rfl
  exact ⟨h.1, h.2 rfl rfl⟩

/-! ### C8 -/

/-- C8: an empty item list is asymmetric.  A block request with zero item
elements is rejected as a bad request with no side effect at all, while
an unblock request with zero item elements succeeds and clears the whole
block list of the owner. -/
theorem C8_emptyItemList (env : Env) (e : XElement)
    (hempty : e.childrenNamed "item" = []) :
    block env e = ⟨Reply.badRequest, [], [], [], [], env.blockItems, false, env.stmFlag⟩ ∧
    (env.fetchRosterErr = false → env.fetchBlockErr = false → env.deleteAllErr = false →
      (unblock env e).reply = Reply.result [] ∧
      (unblock env e).writes = [WriteOp.deleteAll env.username] ∧
      (unblock env e).store = deleteBlockList env.blockItems env.username ∧
      ((unblock env e).store).filter (fun it => it.username == env.username) = []) := by
  constructor
  · unfold block errOutput
    rw [hempty]
    rfl
  · intro hr hbk hda
    rw [unblock_clearAll env e hr hbk hda hempty]
    refine ⟨rfl, rfl, rfl, ?_⟩
    unfold deleteBlockList
    rw [List.filter_filter]
    apply List.filter_eq_nil_iff.mpr
    intro it _
    simp [bne]

/-- Witness for C8: blocking with an empty list fails, unblocking with an
empty list clears the stored item of the owner. -/
theorem C8_witness :
    block envBlocked (blockElemOf []) =
      ⟨Reply.badRequest, [], [], [], [], envBlocked.blockItems, false, envBlocked.stmFlag⟩ ∧
    (unblock envBlocked (unblockElemOf [])).reply = Reply.result [] ∧
    (unblock envBlocked (unblockElemOf [])).store =
      deleteBlockList envBlocked.blockItems envBlocked.username := by
  have h := C8_emptyItemList envBlocked (blockElemOf []) rfl
  have h2 := C8_emptyItemList envBlocked (unblockElemOf []) rfl
  exact ⟨h.1, (h2.2 rfl rfl rfl).1, (h2.2 rfl rfl rfl).2.2.1⟩

/-! ### C10 -/

/-- C10: during a clear-all unblock a stored item whose address fails to
parse is silently discarded: the run still deletes the whole list and
replies with success, no error stanza is produced for the item, and the
unparsed (nil) address is passed on to the presence broadcast step. -/
theorem C10_clearAllDiscardsParseError (env : Env) (e : XElement) (it : BlockListItem)
    (hr : env.fetchRosterErr = false) (hbk : env.fetchBlockErr = false)
    (hda : env.deleteAllErr = false)
    (hempty : e.childrenNamed "item" = [])
    (hit : it ∈ fetchBlockListItems env)
    (hparse : env.newJIDString it.jid true = none) :
    (unblock env e).reply = Reply.result [] ∧
    (unblock env e).writes = [WriteOp.deleteAll env.username] ∧
    (unblock env e).store = deleteBlockList env.blockItems env.username ∧
    ((none : Option JID), AvailableType) ∈ (unblock env e).broadcastCalls := by
  rw [unblock_clearAll env e hr hbk hda hempty]
  refine ⟨rfl, rfl, rfl, ?_⟩
  exact List.mem_map.mpr ⟨it, hit, by rw [hparse]⟩

/-- Witness for C10: the stored unparseable item bad is discarded while
the clear-all unblock succeeds and the nil address reaches the broadcast
step. -/
theorem C10_witness :
    (unblock envBadStored (unblockElemOf [])).reply = Reply.result [] ∧
    ((none : Option JID), AvailableType) ∈ (unblock envBadStored (unblockElemOf [])).broadcastCalls := by
  have h := C10_clearAllDiscardsParseError envBadStored (unblockElemOf []) ⟨"u", "bad"⟩
    rfl rfl rfl rfl (by decide) rfl
  exact ⟨h.1, h.2.2.2⟩

/-! ### C5 -/

/-- C5: an address whose roster relation is none or to, or that has no
roster entry at all, never has a presence stanza emitted for it: the
visibility test fails, the broadcast for that address routes nothing,
and the per-address emissions of both the block loop and the targeted
unblock loop are empty, silently (no error reply arises from them). -/
theorem C5_noVisibilityNoPresence (j : JID) (ris : List RosterItem)
    (h : ∀ ri ∈ ris, ri.jid = j.str → ri.subscription = "none" ∨ ri.subscription = "to") :
    isSubscribedFrom j ris = false ∧
    (∀ env ptype, broadcastPresenceMatching env (some j) ris ptype = []) ∧
    (∀ env blItms, blockPresenceFor env blItms ris j = []) ∧
    (∀ env blItms, unblockPresenceFor env blItms ris j = []) := by
  have hsub : isSubscribedFrom j ris = false := by
    unfold isSubscribedFrom
    rw [List.any_eq_false]
    intro ri hri
    by_cases hj : ri.jid = j.str
    · rcases h ri hri hj with h1 | h1 <;>
        simp [hj, h1, subscriptionFrom, subscriptionBoth]
    · simp [hj]
  have hbc : ∀ env ptype, broadcastPresenceMatching env (some j) ris ptype = [] := by
    intro env ptype
    unfold broadcastPresenceMatching
    simp [hsub]
  refine ⟨hsub, hbc, ?_, ?_⟩
  · intro env blItms
    unfold blockPresenceFor
    by_cases hb : isJIDInBlockList j blItms <;> simp [hb, hbc]
  · intro env blItms
    unfold unblockPresenceFor
    by_cases hb : isJIDInBlockList j blItms <;> simp [hb, hbc]

/-- Witness for C5: the address e@d has no roster entry and the address
c@d has only a to relation in the alternative roster; neither gets any
presence emission. -/
theorem C5_witness :
    broadcastPresenceMatching baseEnv (some ⟨"e", "d", ""⟩) baseEnv.rosterItems
      UnavailableType = [] ∧
    blockPresenceFor baseEnv [] [⟨"c@d", "to"⟩] jC = [] ∧
    unblockPresenceFor baseEnv [⟨"u", "c@d"⟩] [⟨"c@d", "to"⟩] jC = [] :=
  ⟨(C5_noVisibilityNoPresence ⟨"e", "d", ""⟩ baseEnv.rosterItems (by decide)).2.1
      baseEnv UnavailableType,
    (C5_noVisibilityNoPresence jC [⟨"c@d", "to"⟩] (by decide)).2.2.1 baseEnv [],
    (C5_noVisibilityNoPresence jC [⟨"c@d", "to"⟩] (by decide)).2.2.2 baseEnv [⟨"u", "c@d"⟩]⟩

/-! ### C1 -/

/-- Routed presences of a block run that passes validation and both
storage reads: the concatenation of the per-address emissions, whatever
the insert outcome (the broadcast precedes the insert). -/
lemma block_routed (env : Env) (e : XElement) (jds : List JID)
    (hparse : extractItemJIDs env (e.childrenNamed "item") = some jds)
    (hne : e.childrenNamed "item" ≠ [])
    (hr : env.fetchRosterErr = false) (hbk : env.fetchBlockErr = false) :
    (block env e).routed =
      (jds.map (fun j =>
        blockPresenceFor env (fetchBlockListItems env) env.rosterItems j)).flatten := by
  have hlen : ¬(e.childrenNamed "item").length = 0 := by
    simpa [List.length_eq_zero] using hne
  unfold block
  rw [if_neg hlen, hparse, hr, hbk]
  simp only [Bool.false_eq_true, if_false]
  split
  · split <;> rfl
  · rfl

/-- C1 counterexample: the claim quantifies over every requested address
with subscription from or both, but an address already in the block set
is skipped, so blocking the already blocked contact c, who has
subscription both and a live session, emits no presence at all. -/
theorem C1_counterexample :
    extractItemJIDs envBlocked ((blockElemOf ["c@d"]).childrenNamed "item") = some [jC] ∧
    isSubscribedFrom jC envBlocked.rosterItems = true ∧
    envBlocked.sessionsFor jC = [stmC] ∧
    (block envBlocked (blockElemOf ["c@d"])).routed = [] :=
  ⟨rfl, rfl, rfl, rfl⟩

/-- C1 amended: for every block request and every requested address with
roster subscription from or both that is not already in the block set,
the handler emits an unavailable presence stanza with no payload, from
the owner bare address, to each live session of that address. -/
theorem C1_blockPresence (env : Env) (e : XElement) (jds : List JID) (j : JID)
    (hr : env.fetchRosterErr = false) (hbk : env.fetchBlockErr = false)
    (hparse : extractItemJIDs env (e.childrenNamed "item") = some jds)
    (hne : e.childrenNamed "item" ≠ [])
    (hj : j ∈ jds)
    (hsub : isSubscribedFrom j env.rosterItems = true)
    (hnotbl : isJIDInBlockList j (fetchBlockListItems env) = false) :
    ∀ stm ∈ env.sessionsFor j,
      (⟨env.stmJID.toBareJID, stm.jid, UnavailableType, []⟩ : Presence) ∈
        (block env e).routed := by
  intro stm hstm
  rw [block_routed env e jds hparse hne hr hbk]
  apply List.mem_flatten.mpr
  refine ⟨blockPresenceFor env (fetchBlockListItems env) env.rosterItems j,
    List.mem_map_of_mem _ hj, ?_⟩
  unfold blockPresenceFor
  rw [hnotbl]
  simp only [Bool.false_eq_true, if_false]
  unfold broadcastPresenceMatching
  apply List.mem_filterMap.mpr
  refine ⟨stm, hstm, ?_⟩
  rw [hsub]
  simp only [if_true]
  rw [broadcastStanza_unavailable]

/-- Witness for the amended C1: blocking the not yet blocked contact c
with subscription both routes the payload-free unavailable presence from
the owner bare address u@d to the session c@d/r2. -/
theorem C1_witness :
    (⟨⟨"u", "d", ""⟩, ⟨"c", "d", "r2"⟩, UnavailableType, []⟩ : Presence) ∈
      (block baseEnv (blockElemOf ["c@d"])).routed :=
  C1_blockPresence baseEnv (blockElemOf ["c@d"]) [jC] jC rfl rfl rfl
    (List.cons_ne_nil _ _) (by decide) rfl rfl stmC (List.mem_singleton.mpr rfl)

/-! ### C3 -/

/-- C3 counterexample: the available presence emitted by a clear-all
unblock carries the cached presence payload of the receiving contact
session, not the current or last presence payload of the owner.  Here
the owner has no presence payload at all, yet the emitted stanza carries
the payload cached on the session of c. -/
theorem C3_counterexample :
    envBlockedPres.stmPresence = none ∧
    (unblock envBlockedPres (unblockElemOf [])).routed =
      [⟨⟨"u", "d", ""⟩, ⟨"c", "d", "r2"⟩, AvailableType, [XElement.mk "show" [] []]⟩] ∧
    [XElement.mk "show" [] []] ≠ ([] : List XElement) :=
  ⟨rfl, rfl, List.cons_ne_nil _ _⟩

/-- C3 amended: a clear-all unblock deletes the whole block set of the
owner and, for each previously blocked address that parses and has
roster subscription from or both, emits to every live session of that
address an available presence carrying the cached presence payload of
the receiving session (if any), from the owner bare address. -/
theorem C3_clearAllPresence (env : Env) (e : XElement)
    (hr : env.fetchRosterErr = false) (hbk : env.fetchBlockErr = false)
    (hda : env.deleteAllErr = false) (hempty : e.childrenNamed "item" = []) :
    (unblock env e).reply = Reply.result [] ∧
    (unblock env e).store = deleteBlockList env.blockItems env.username ∧
    ∀ it ∈ fetchBlockListItems env, ∀ j, env.newJIDString it.jid true = some j →
      isSubscribedFrom j env.rosterItems = true →
      ∀ stm ∈ env.sessionsFor j,
        (⟨env.stmJID.toBareJID, stm.jid, AvailableType, cachedPayload stm⟩ : Presence) ∈
          (unblock env e).routed := by
  rw [unblock_clearAll env e hr hbk hda hempty]
  refine ⟨rfl, rfl, ?_⟩
  intro it hit j hparse hsub stm hstm
  apply List.mem_flatten.mpr
  refine ⟨_, List.mem_map_of_mem _ hit, ?_⟩
  rw [hparse]
  unfold broadcastPresenceMatching
  apply List.mem_filterMap.mpr
  refine ⟨stm, hstm, ?_⟩
  rw [hsub]
  simp only [if_true]
  rw [broadcastStanza_available]

/-- Witness for the amended C3: clearing the block list of the owner
routes to the session c@d/r2 an available presence carrying the payload
cached on that session, and empties the stored list of the owner. -/
theorem C3_witness :
    (unblock envBlockedPres (unblockElemOf [])).reply = Reply.result [] ∧
    (⟨⟨"u", "d", ""⟩, ⟨"c", "d", "r2"⟩, AvailableType, cachedPayload stmCPres⟩ : Presence) ∈
      (unblock envBlockedPres (unblockElemOf [])).routed := by
  have h := C3_clearAllPresence envBlockedPres (unblockElemOf []) rfl rfl rfl rfl
  exact ⟨h.1, h.2.2 ⟨"u", "c@d"⟩ (by decide) jC rfl rfl stmCPres (List.mem_singleton.mpr rfl)⟩

/-! ### C4 -/

/-- Upsert keeps every item already in the store. -/
lemma mem_insertOrUpdate_left {a : BlockListItem} {store items : List BlockListItem}
    (h : a ∈ store) : a ∈ insertOrUpdateBlockListItems store items := by
  induction items generalizing store with
  | nil => exact h
  | cons it rest ih =>
    unfold insertOrUpdateBlockListItems
    rw [List.foldl_cons]
    apply ih
    by_cases hm : it ∈ store
    · simpa [hm] using h
    · simp [hm, h]

/-- Upsert ends with every inserted item present. -/
lemma mem_insertOrUpdate_right {a : BlockListItem} {store items : List BlockListItem}
    (h : a ∈ items) : a ∈ insertOrUpdateBlockListItems store items := by
  induction items generalizing store with
  | nil => cases h
  | cons it rest ih =>
    unfold insertOrUpdateBlockListItems
    rw [List.foldl_cons]
    rcases List.mem_cons.mp h with h1 | h1
    · subst h1
      apply mem_insertOrUpdate_left
      by_cases hm : a ∈ store
      · rw [if_pos hm]
        exact hm
      · rw [if_neg hm]
        simp
    · exact ih h1

/-- extractItemJIDs depends on the environment only through the parse
function. -/
lemma extractItemJIDs_congr (env env' : Env) (h : env.newJIDString = env'.newJIDString) :
    ∀ l, extractItemJIDs env l = extractItemJIDs env' l := by
  intro l
  induction l with
  | nil => rfl
  | cons x rest ih => simp [extractItemJIDs, h, ih]

/-- Shape of a block run whose validation, storage reads and storage
write all succeed. -/
lemma block_success_shape (env : Env) (e : XElement) (jds : List JID)
    (hparse : extractItemJIDs env (e.childrenNamed "item") = some jds)
    (hne : e.childrenNamed "item" ≠ [])
    (hr : env.fetchRosterErr = false) (hbk : env.fetchBlockErr = false)
    (hins : env.insertErr = false) :
    (block env e).store = insertOrUpdateBlockListItems env.blockItems
      (jds.filterMap (fun j =>
        if isJIDInBlockList j (fetchBlockListItems env) then none
        else some (⟨env.username, j.str⟩ : BlockListItem))) ∧
    (block env e).reply = Reply.result [] ∧
    (block env e).broadcastCalls = jds.filterMap (fun j =>
      if isJIDInBlockList j (fetchBlockListItems env) then none
      else some ((some j : Option JID), UnavailableType)) ∧
    (block env e).pushes = pushIQ env e ∧
    (block env e).reload = true := by
  have hlen : ¬(e.childrenNamed "item").length = 0 := by
    simpa [List.length_eq_zero] using hne
  unfold block
  rw [if_neg hlen, hparse, hr, hbk, hins]
  simp only [Bool.false_eq_true, if_false]
  split
  · exact ⟨rfl, rfl, rfl, rfl, rfl⟩
  · rename_i hlt
    have hbl : jds.filterMap (fun j =>
        if isJIDInBlockList j (fetchBlockListItems env) then none
        else some (⟨env.username, j.str⟩ : BlockListItem)) = [] :=
      List.length_eq_zero.mp (Nat.eq_zero_of_not_pos hlt)
    rw [hbl]
    exact ⟨rfl, rfl, rfl, rfl, rfl⟩

/-- C4: blocking an address already in the block set is a no-op for that
address: no presence broadcast is invoked for it, the run still replies
with success, and running the same block request a second time leaves
the store exactly as after the first run. -/
theorem C4_blockIdempotent (env : Env) (e : XElement) (jds : List JID)
    (hparse : extractItemJIDs env (e.childrenNamed "item") = some jds)
    (hne : e.childrenNamed "item" ≠ [])
    (hr : env.fetchRosterErr = false) (hbk : env.fetchBlockErr = false)
    (hins : env.insertErr = false) :
    (∀ j ∈ jds, isJIDInBlockList j (fetchBlockListItems env) = true →
      ((some j : Option JID), UnavailableType) ∉ (block env e).broadcastCalls) ∧
    (block env e).reply = Reply.result [] ∧
    (block { env with blockItems := (block env e).store } e).store = (block env e).store := by
  obtain ⟨hstore, hreply, hcalls, -, -⟩ := block_success_shape env e jds hparse hne hr hbk hins
  refine ⟨?_, hreply, ?_⟩
  · intro j hj hbl hmem
    rw [hcalls] at hmem
    rcases List.mem_filterMap.mp hmem with ⟨j2, hj2, heq⟩
    by_cases hb : isJIDInBlockList j2 (fetchBlockListItems env) = true
    · rw [if_pos hb] at heq
      cases heq
    · rw [if_neg hb] at heq
      have hj2j : j2 = j := Option.some.inj (congrArg Prod.fst (Option.some.inj heq))
      rw [hj2j] at hb
      exact hb hbl
  · have hparse2 :
        extractItemJIDs { env with blockItems := (block env e).store }
          (e.childrenNamed "item") = some jds :=
      (extractItemJIDs_congr { env with blockItems := (block env e).store } env rfl
        (e.childrenNamed "item")).trans hparse
    obtain ⟨hstore2, -, -, -, -⟩ :=
      block_success_shape { env with blockItems := (block env e).store } e jds
        hparse2 hne hr hbk hins
    have hin2 : ∀ j ∈ jds,
        isJIDInBlockList j
          (fetchBlockListItems { env with blockItems := (block env e).store }) = true := by
      intro j hj
      simp only [fetchBlockListItems, isJIDInBlockList]
      rw [hstore]
      apply List.any_eq_true.mpr
      by_cases hb : isJIDInBlockList j (fetchBlockListItems env) = true
      · obtain ⟨it, hitmem, hitp⟩ := List.any_eq_true.mp hb
        refine ⟨it, ?_, hitp⟩
        rcases List.mem_filter.mp hitmem with ⟨hit1, hit2⟩
        exact List.mem_filter.mpr ⟨mem_insertOrUpdate_left hit1, hit2⟩
      · refine ⟨⟨env.username, j.str⟩, ?_, ?_⟩
        · apply List.mem_filter.mpr
          refine ⟨?_, by simp⟩
          apply mem_insertOrUpdate_right
          apply List.mem_filterMap.mpr
          exact ⟨j, hj, by rw [if_neg hb]⟩
        · simp
    have hbl2 : jds.filterMap (fun j =>
        if isJIDInBlockList j
            (fetchBlockListItems { env with blockItems := (block env e).store }) then none
        else some (⟨env.username, j.str⟩ : BlockListItem)) = [] := by
      apply List.filterMap_eq_nil_iff.mpr
      intro j hj
      rw [if_pos (hin2 j hj)]
    rw [hstore2, hbl2]
    rfl

/-- Witness for C4: a second block of c against the store produced by the
first block leaves the store unchanged, and blocking the already blocked
c invokes no broadcast for it while still replying with success. -/
theorem C4_witness :
    ((some jC : Option JID), UnavailableType) ∉
      (block envBlocked (blockElemOf ["c@d"])).broadcastCalls ∧
    (block envBlocked (blockElemOf ["c@d"])).reply = Reply.result [] ∧
    (block { baseEnv with blockItems := (block baseEnv (blockElemOf ["c@d"])).store }
        (blockElemOf ["c@d"])).store = (block baseEnv (blockElemOf ["c@d"])).store := by
  have h1 := C4_blockIdempotent envBlocked (blockElemOf ["c@d"]) [jC] rfl
    (List.cons_ne_nil _ _) rfl rfl rfl
  have h2 := C4_blockIdempotent baseEnv (blockElemOf ["c@d"]) [jC] rfl
    (List.cons_ne_nil _ _) rfl rfl rfl
  exact ⟨h1.1 jC (List.mem_singleton.mpr rfl) rfl, h1.2.1, h2.2.2⟩

/-! ### C9 -/

/-- Upsert preserves the no-duplicates invariant of the store. -/
lemma nodup_insertOrUpdate {store items : List BlockListItem}
    (h : store.Nodup) : (insertOrUpdateBlockListItems store items).Nodup := by
  induction items generalizing store with
  | nil => exact h
  | cons it rest ih =>
    unfold insertOrUpdateBlockListItems
    rw [List.foldl_cons]
    apply ih
    by_cases hm : it ∈ store
    · rw [if_pos hm]
      exact h
    · rw [if_neg hm]
      simp [List.nodup_append, h, hm]

/-- C9: a block run preserves the invariant that the stored block list
holds no duplicate (owner, blocked) pairs, also when a single request
lists the same not yet blocked address more than once. -/
theorem C9_noDuplicates (env : Env) (e : XElement) (hnd : env.blockItems.Nodup) :
    (block env e).store.Nodup := by
  unfold block errOutput
  dsimp only
  repeat' split
  all_goals first
    | exact hnd
    | exact nodup_insertOrUpdate hnd

/-- Witness for C9: a block request listing c twice still leaves a
duplicate-free store.  The run inserts both occurrences through the
upsert, which keeps one. -/
theorem C9_witness : (block baseEnv (blockElemOf ["c@d", "c@d"])).store.Nodup :=
  C9_noDuplicates baseEnv (blockElemOf ["c@d", "c@d"]) (by decide)

/-! ### C2 -/

/-- No push targets an address that belongs to no pushed-to session. -/
lemma countP_pushList_zero (stms : List Stream) (e : XElement) (jjid : JID)
    (h : ∀ s ∈ stms, s.jid ≠ jjid) :
    ((stms.filter (fun s => s.requestedFlag)).map (fun s => (s.jid, e))).countP
      (fun pr => pr.1 == jjid) = 0 := by
  apply List.countP_eq_zero.mpr
  intro pr hpr
  rcases List.mem_map.mp hpr with ⟨s, hs, rfl⟩
  have hsm := (List.mem_filter.mp hs).1
  simp [h s hsm]

/-- Each session with the requested flag set occurs exactly once as a
push target, and sessions without the flag occur not at all, provided
the session addresses are pairwise distinct. -/
lemma countP_pushList (stms : List Stream) (e : XElement) (stm : Stream)
    (hnd : (stms.map (fun s => s.jid)).Nodup) (hmem : stm ∈ stms) :
    ((stms.filter (fun s => s.requestedFlag)).map (fun s => (s.jid, e))).countP
      (fun pr => pr.1 == stm.jid) = if stm.requestedFlag then 1 else 0 := by
  induction stms with
  | nil => cases hmem
  | cons h t ih =>
    rw [List.map_cons] at hnd
    have hnd1 : h.jid ∉ t.map (fun s => s.jid) := (List.nodup_cons.mp hnd).1
    have hnd2 := (List.nodup_cons.mp hnd).2
    rcases List.mem_cons.mp hmem with rfl | hmt
    · have hzero : ((t.filter (fun s => s.requestedFlag)).map (fun s => (s.jid, e))).countP
          (fun pr => pr.1 == stm.jid) = 0 := by
        apply countP_pushList_zero
        intro s hs hseq
        exact hnd1 (hseq ▸ List.mem_map_of_mem _ hs)
      rw [List.filter_cons]
      by_cases hf : stm.requestedFlag
      · rw [if_pos (by rw [hf])]
        rw [List.map_cons, List.countP_cons, hzero, hf]
        simp
      · rw [if_neg (by simp [hf])]
        rw [hzero]
        simp [hf]
    · rw [List.filter_cons]
      by_cases hf : h.requestedFlag
      · rw [if_pos (by rw [hf])]
        rw [List.map_cons, List.countP_cons]
        have hne2 : ¬((h.jid == stm.jid) = true) := by
          intro hbeq
          have heq : h.jid = stm.jid := by simpa using hbeq
          exact hnd1 (heq ▸ List.mem_map_of_mem _ hmt)
        rw [ih hnd2 hmt]
        simp [hne2]
      · rw [if_neg (by simp [hf])]
        exact ih hnd2 hmt

/-- A successful block run pushes through pushIQ. -/
lemma block_pushes_of_success (env : Env) (e : XElement) :
    (block env e).reply = Reply.result [] → (block env e).pushes = pushIQ env e := by
  unfold block errOutput
  dsimp only
  repeat' split
  all_goals intro h
  all_goals first
    | rfl
    | exact Reply.noConfusion h

/-- A successful unblock run pushes through pushIQ. -/
lemma unblock_pushes_of_success (env : Env) (e : XElement) :
    (unblock env e).reply = Reply.result [] → (unblock env e).pushes = pushIQ env e := by
  unfold unblock errOutput
  dsimp only
  repeat' split
  all_goals intro h
  all_goals first
    | rfl
    | exact Reply.noConfusion h

/-- C2: after a successful block or unblock, every push carries the
original request element unmodified; every session of the owner other
than the requesting one with the requested flag set receives exactly one
push, and every session without the flag receives none.  Sessions are
assumed to have pairwise distinct addresses. -/
theorem C2_pushSynchronization (env : Env) (e : XElement)
    (hnd : ((env.sessionsFor env.stmJID.toBareJID).map (fun s => s.jid)).Nodup) :
    ((block env e).reply = Reply.result [] →
      (∀ pr ∈ (block env e).pushes, pr.2 = e) ∧
      ∀ stm ∈ env.sessionsFor env.stmJID.toBareJID,
        (stm.requestedFlag = false →
          (block env e).pushes.countP (fun pr => pr.1 == stm.jid) = 0) ∧
        (stm.jid ≠ env.stmJID → stm.requestedFlag = true →
          (block env e).pushes.countP (fun pr => pr.1 == stm.jid) = 1)) ∧
    ((unblock env e).reply = Reply.result [] →
      (∀ pr ∈ (unblock env e).pushes, pr.2 = e) ∧
      ∀ stm ∈ env.sessionsFor env.stmJID.toBareJID,
        (stm.requestedFlag = false →
          (unblock env e).pushes.countP (fun pr => pr.1 == stm.jid) = 0) ∧
        (stm.jid ≠ env.stmJID → stm.requestedFlag = true →
          (unblock env e).pushes.countP (fun pr => pr.1 == stm.jid) = 1)) := by
  have key : ∀ pushes : List (JID × XElement), pushes = pushIQ env e →
      (∀ pr ∈ pushes, pr.2 = e) ∧
      ∀ stm ∈ env.sessionsFor env.stmJID.toBareJID,
        (stm.requestedFlag = false → pushes.countP (fun pr => pr.1 == stm.jid) = 0) ∧
        (stm.jid ≠ env.stmJID → stm.requestedFlag = true →
          pushes.countP (fun pr => pr.1 == stm.jid) = 1) := by
    intro pushes hp
    subst hp
    unfold pushIQ
    constructor
    · intro pr hpr
      rcases List.mem_map.mp hpr with ⟨s, -, rfl⟩
      rfl
    · intro stm hstm
      have hcount := countP_pushList (env.sessionsFor env.stmJID.toBareJID) e stm hnd hstm
      constructor
      · intro hf
        rw [hcount]
        simp [hf]
      · intro _hne hf
        rw [hcount]
        simp [hf]
  exact ⟨fun h => key _ (block_pushes_of_success env e h),
    fun h => key _ (unblock_pushes_of_success env e h)⟩

/-- Witness for C2: after blocking c, the flagged sibling session u@d/r2
receives exactly one push and the unflagged session u@d/r3 none. -/
theorem C2_witness :
    (block baseEnv (blockElemOf ["c@d"])).pushes.countP
      (fun pr => pr.1 == (⟨"u", "d", "r2"⟩ : JID)) = 1 ∧
    (block baseEnv (blockElemOf ["c@d"])).pushes.countP
      (fun pr => pr.1 == (⟨"u", "d", "r3"⟩ : JID)) = 0 := by
  have h := (C2_pushSynchronization baseEnv (blockElemOf ["c@d"]) (by decide)).1 rfl
  refine ⟨?_, ?_⟩
  · exact (h.2 ⟨⟨"u", "d", "r2"⟩, true, none⟩
      (List.mem_cons_of_mem _ (List.mem_cons_self _ _))).2 (by decide) rfl
  · exact (h.2 ⟨⟨"u", "d", "r3"⟩, false, none⟩
      (List.mem_cons_of_mem _ (List.mem_cons_of_mem _ (List.mem_cons_self _ _)))).1 rfl

end Xep0191
